import Mathlib

/-!
Verification of the SmartTasker backend against its specification.

The repository has two server variants: src/index.js (CORS + logging +
readiness middleware, but only the signup and login routes; the task
routes are a TODO) and an unnamed second server file (all routes, no
readiness middleware). Below, definitions embed the route handlers of
these files. JavaScript Date values are modelled as millisecond
timestamps (Int); an unparseable date, i.e. the JavaScript Invalid Date,
is modelled as none. Request body fields are Option-valued: none means
the field is absent from the JSON body.
-/

namespace SmartTasker

/-- A task record as stored in the Tasks collection: the fields the route
handlers manipulate. dueDate is a millisecond timestamp. -/
structure Task where
  id : Nat
  title : String
  priority : String
  category : String
  dueDate : Int
  recurrence : String
  deriving Repr, DecidableEq

/-- A user record in the Users collection. -/
structure User where
  email : String
  passwordHash : String
  deriving Repr, DecidableEq

/-- An HTTP JSON response: status code, message, and the optional echoed
email used by the login route. -/
structure Resp where
  status : Nat
  message : String
  email : Option String
  deriving Repr, DecidableEq

/-! ## Create-task route: event-trace model

The POST tasks handler runs: await newTask.save(); broadcast TASK_ADDED;
if recurrence is not None, await sendRecurringTaskEmail(savedTask);
res.status(201). We record the observable steps of one request as an
ordered event trace, so that claims about waiting and ordering can be
stated as positions in the trace. -/

/-- One observable step of the create-task route. mailDone carries the
outcome of the mail transport (true = sent, false = transport error). -/
inductive Ev where
  | storeSave : Ev
  | broadcast : String → Ev
  | mailStart : Ev
  | mailDone : Bool → Ev
  | respond : Nat → Ev
  deriving Repr, DecidableEq

/-- sendRecurringTaskEmail: attempts one transporter.sendMail and catches
any failure (logged only), so the step always completes normally; the
Bool records whether the transport succeeded. -/
def sendRecurringTaskEmail (mailOk : Bool) : List Ev :=
  [Ev.mailStart, Ev.mailDone mailOk]

/-- The JSON body of a create request. dueDate holds the value new Date
would produce from the supplied field: none when the field is absent or
unparseable (Invalid Date). -/
structure CreateReq where
  title : Option String
  priority : Option String
  category : Option String
  dueDate : Option Int
  recurrence : Option String
  deriving Repr, DecidableEq

/-- The destructuring default in the handler: recurrence = "None" when
the field is absent from the body. -/
def effectiveRecurrence (req : CreateReq) : String :=
  req.recurrence.getD "None"

def validPriority (p : String) : Bool :=
  p == "High" || p == "Medium" || p == "Low"

def validRecurrence (r : String) : Bool :=
  r == "None" || r == "Daily" || r == "Weekly" || r == "Monthly"

/-- newTask.save() under the Tasks schema: title required (a missing or
empty string fails the required validator), dueDate required and must
cast to a Date, priority and recurrence must be in their enums; schema
defaults are Medium priority and General category; the recurrence value
stored is the destructured one (default "None"). Returns the saved
record, or none for a validation or cast error. -/
def saveTask (req : CreateReq) (id : Nat) : Option Task :=
  match req.title, req.dueDate with
  | some t, some due =>
    if t != "" && validPriority (req.priority.getD "Medium")
        && validRecurrence (effectiveRecurrence req) then
      some { id := id, title := t, priority := req.priority.getD "Medium",
             category := req.category.getD "General", dueDate := due,
             recurrence := effectiveRecurrence req }
    else none
  | _, _ => none

/-- The POST tasks handler: on a successful save it broadcasts
TASK_ADDED, then — when recurrence is not "None" — awaits the mail step
before answering 201 with the saved task; a save failure is caught and
answered 400. Returns the event trace and the persisted record. -/
def createHandler (req : CreateReq) (id : Nat) (mailOk : Bool) :
    List Ev × Option Task :=
  match saveTask req id with
  | none => ([Ev.respond 400], none)
  | some t =>
    ([Ev.storeSave, Ev.broadcast "TASK_ADDED"]
      ++ (if effectiveRecurrence req != "None" then sendRecurringTaskEmail mailOk
          else [])
      ++ [Ev.respond 201], some t)

def isMailStart : Ev → Bool
  | Ev.mailStart => true
  | _ => false

def isMailDone : Ev → Bool
  | Ev.mailDone _ => true
  | _ => false

def isRespond : Ev → Bool
  | Ev.respond _ => true
  | _ => false

/-- The status of the first respond event of a trace. -/
def respondStatus (tr : List Ev) : Option Nat :=
  tr.findSome? fun e =>
    match e with
    | Ev.respond s => some s
    | _ => none

/-- Whether the trace answers the HTTP request before the mail step has
completed: the first respond event precedes any mail-completion event. -/
def respondsBeforeMailDone (tr : List Ev) : Bool :=
  match tr.findIdx? isRespond, tr.findIdx? isMailDone with
  | some i, some j => decide (i < j)
  | some _, none => true
  | none, _ => false

/-- A sample create request with recurrence Monthly. -/
def reqMonthly : CreateReq :=
  { title := some "Pay rent", priority := some "High", category := none,
    dueDate := some 1709251200000, recurrence := some "Monthly" }

/-- Claim C1 counterexample: for the concrete create request reqMonthly
(recurrence Monthly, store insert succeeds), the handler does wait on
the mail step: the mail-completion event precedes the respond event in
the trace, so respondsBeforeMailDone is false, refuting the claim that
the 201 response is built without waiting on the mail send. -/
theorem C1_counterexample :
    effectiveRecurrence reqMonthly ≠ "None" ∧
    (createHandler reqMonthly 1 true).2.isSome = true ∧
    respondsBeforeMailDone (createHandler reqMonthly 1 true).1 = false := by
  decide

/-- Claim C1 (amended): for every create request with recurrence other
than "None" whose store insert succeeds, the handler awaits the mail
step before answering — the mail-completion event precedes the respond
event in the trace — but the response does not depend on the mail
outcome: the status is 201 whether the transport succeeds or fails. -/
theorem C1_response_after_mail_but_independent (req : CreateReq) (id : Nat)
    (mailOk : Bool) (t : Task)
    (hrec : effectiveRecurrence req ≠ "None")
    (hsave : (createHandler req id mailOk).2 = some t) :
    respondsBeforeMailDone (createHandler req id mailOk).1 = false ∧
    respondStatus (createHandler req id mailOk).1 = some 201 := by
  cases h : saveTask req id with
  | none => simp [createHandler, h] at hsave
  | some t0 =>
    have htr : (createHandler req id mailOk).1 =
        [Ev.storeSave, Ev.broadcast "TASK_ADDED", Ev.mailStart,
         Ev.mailDone mailOk, Ev.respond 201] := by
      simp [createHandler, h, sendRecurringTaskEmail, hrec]
    rw [htr]
    cases mailOk <;> exact ⟨rfl, rfl⟩

/-- Claim C1 witness: the amended theorem applied to reqMonthly with a
failing transport. -/
theorem C1_witness :
    respondsBeforeMailDone (createHandler reqMonthly 1 false).1 = false ∧
    respondStatus (createHandler reqMonthly 1 false).1 = some 201 :=
  C1_response_after_mail_but_independent reqMonthly 1 false
    { id := 1, title := "Pay rent", priority := "High", category := "General",
      dueDate := 1709251200000, recurrence := "Monthly" }
    (by decide) (by decide)

/-- Claim C5: for every create request with recurrence other than "None"
whose store insert succeeds, the trace contains exactly one mail-send
attempt, and the response status is 201 for every transport outcome —
in particular when the transport fails. -/
theorem C5_one_mail_attempt_status_201 (req : CreateReq) (id : Nat)
    (mailOk : Bool) (t : Task)
    (hrec : effectiveRecurrence req ≠ "None")
    (hsave : (createHandler req id mailOk).2 = some t) :
    (createHandler req id mailOk).1.countP isMailStart = 1 ∧
    respondStatus (createHandler req id mailOk).1 = some 201 := by
  cases h : saveTask req id with
  | none => simp [createHandler, h] at hsave
  | some t0 =>
    have htr : (createHandler req id mailOk).1 =
        [Ev.storeSave, Ev.broadcast "TASK_ADDED", Ev.mailStart,
         Ev.mailDone mailOk, Ev.respond 201] := by
      simp [createHandler, h, sendRecurringTaskEmail, hrec]
    rw [htr]
    cases mailOk <;> exact ⟨rfl, rfl⟩

/-- Claim C5 witness: the theorem applied to a concrete Weekly create
request with a failing mail transport. -/
theorem C5_witness :
    (createHandler
        { title := some "Standup", priority := none, category := none,
          dueDate := some 1709337600000, recurrence := some "Weekly" }
        2 false).1.countP isMailStart = 1 ∧
    respondStatus (createHandler
        { title := some "Standup", priority := none, category := none,
          dueDate := some 1709337600000, recurrence := some "Weekly" }
        2 false).1 = some 201 :=
  C5_one_mail_attempt_status_201
    { title := some "Standup", priority := none, category := none,
      dueDate := some 1709337600000, recurrence := some "Weekly" }
    2 false
    { id := 2, title := "Standup", priority := "Medium", category := "General",
      dueDate := 1709337600000, recurrence := "Weekly" }
    (by decide) (by decide)

/-- Claim C9: for every create request that omits the recurrence field
and whose save succeeds, the persisted record has recurrence "None" and
the trace contains no mail-send attempt. -/
theorem C9_omitted_recurrence_defaults_none_no_mail (req : CreateReq)
    (id : Nat) (mailOk : Bool) (t : Task)
    (hrec : req.recurrence = none)
    (hsave : (createHandler req id mailOk).2 = some t) :
    t.recurrence = "None" ∧
    (createHandler req id mailOk).1.countP isMailStart = 0 := by
  have heff : effectiveRecurrence req = "None" := by
    simp [effectiveRecurrence, hrec]
  cases h : saveTask req id with
  | none => simp [createHandler, h] at hsave
  | some t0 =>
    have ht0 : t0 = t := by
      simpa [createHandler, h] using hsave
    subst ht0
    constructor
    · unfold saveTask at h
      split at h
      · split at h
        · cases h
          exact heff
        · cases h
      · cases h
    · simp [createHandler, h, heff, isMailStart]

/-- Claim C9 witness: the theorem applied to a concrete create request
without a recurrence field. -/
theorem C9_witness :
    ({ id := 3, title := "Buy milk", priority := "Low", category := "General",
       dueDate := 1709424000000, recurrence := "None" } : Task).recurrence
      = "None" ∧
    (createHandler
        { title := some "Buy milk", priority := some "Low", category := none,
          dueDate := some 1709424000000, recurrence := none }
        3 true).1.countP isMailStart = 0 :=
  C9_omitted_recurrence_defaults_none_no_mail
    { title := some "Buy milk", priority := some "Low", category := none,
      dueDate := some 1709424000000, recurrence := none }
    3 true
    { id := 3, title := "Buy milk", priority := "Low", category := "General",
      dueDate := 1709424000000, recurrence := "None" }
    rfl (by decide)

/-! ## Update-task route

The PUT tasks handler calls findByIdAndUpdate with the update document
spread from the body but with dueDate overwritten by new Date applied to
the dueDate body field — unconditionally, whether or not the field was
supplied. new Date of undefined (field absent) or of an unparseable
string is Invalid Date; mongoose fails to cast it and the catch answers
400. Otherwise a missing id answers 404, and an existing record has the
supplied fields replaced, is broadcast as TASK_UPDATED and returned. -/

/-- The JSON body of an update request: each field is none when absent.
dueDate is doubly optional: the outer layer is field presence, the inner
layer is whether new Date can parse the supplied value. -/
structure UpdateReq where
  title : Option String
  priority : Option String
  category : Option String
  dueDate : Option (Option Int)
  recurrence : Option String
  deriving Repr, DecidableEq

/-- new Date applied to the dueDate body field: an absent field is
undefined, and new Date of undefined is Invalid Date (none); a present
field parses or not on its own. -/
def jsNewDate : Option (Option Int) → Option Int
  | none => none
  | some v => v

/-- The merged record findByIdAndUpdate produces: supplied fields
replace stored ones, absent fields keep their stored values, and
dueDate is always the freshly parsed value. -/
def applyUpdate (t : Task) (req : UpdateReq) (due : Int) : Task :=
  { t with
    title := req.title.getD t.title,
    priority := req.priority.getD t.priority,
    category := req.category.getD t.category,
    recurrence := req.recurrence.getD t.recurrence,
    dueDate := due }

/-- Outcome of one PUT request: status, body record, post-state of the
store, and the fan-out event kinds emitted. -/
structure UpdateOutcome where
  status : Nat
  returned : Option Task
  store : List Task
  broadcasts : List String
  deriving Repr, DecidableEq

/-- The PUT tasks handler. The update document is cast before the query,
so an invalid dueDate answers 400 even when the id does not exist. -/
def updateHandler (store : List Task) (id : Nat) (req : UpdateReq) :
    UpdateOutcome :=
  match jsNewDate req.dueDate with
  | none => { status := 400, returned := none, store := store, broadcasts := [] }
  | some due =>
    match store.find? (fun s => s.id == id) with
    | none =>
      { status := 404, returned := none, store := store, broadcasts := [] }
    | some t =>
      let u := applyUpdate t req due
      { status := 200, returned := some u,
        store := store.map (fun s => if s.id == id then u else s),
        broadcasts := ["TASK_UPDATED"] }

/-- A sample stored task. -/
def taskStored : Task :=
  { id := 1, title := "Old title", priority := "Low", category := "Work",
    dueDate := 1709251200000, recurrence := "None" }

/-- An update request that supplies only a new title — in particular no
dueDate field. -/
def reqTitleOnly : UpdateReq :=
  { title := some "Renamed", priority := none, category := none,
    dueDate := none, recurrence := none }

/-- Claim C2 counterexample: task id 1 exists in the store and the
request supplies only the title, yet the handler does not replace the
title and leave the other fields unchanged: because dueDate is re-parsed
unconditionally, the absent dueDate becomes Invalid Date and the request
fails with 400, returning no record and emitting no fan-out event. -/
theorem C2_counterexample :
    ([taskStored].find? (fun s => s.id == 1)).isSome = true ∧
    (updateHandler [taskStored] 1 reqTitleOnly).returned ≠
      some { taskStored with title := "Renamed" } ∧
    (updateHandler [taskStored] 1 reqTitleOnly).status = 400 ∧
    (updateHandler [taskStored] 1 reqTitleOnly).broadcasts = [] := by
  decide

/-- Claim C2 (amended): for every update request that supplies a
parseable dueDate, when a task with the given id exists the handler
replaces exactly the supplied fields (with dueDate re-parsed), leaves
every absent field unchanged, returns the updated record, and emits
exactly one TASK_UPDATED fan-out event. (As stated the claim fails:
dueDate is re-parsed even when absent, so such requests answer 400.) -/
theorem C2_update_replaces_supplied_fields (store : List Task) (id : Nat)
    (req : UpdateReq) (due : Int) (t : Task)
    (hdue : req.dueDate = some (some due))
    (hfind : store.find? (fun s => s.id == id) = some t) :
    (updateHandler store id req).status = 200 ∧
    (updateHandler store id req).broadcasts = ["TASK_UPDATED"] ∧
    ∃ u, (updateHandler store id req).returned = some u ∧
      u.id = t.id ∧
      u.dueDate = due ∧
      (∀ s, req.title = some s → u.title = s) ∧
      (req.title = none → u.title = t.title) ∧
      (∀ s, req.priority = some s → u.priority = s) ∧
      (req.priority = none → u.priority = t.priority) ∧
      (∀ s, req.category = some s → u.category = s) ∧
      (req.category = none → u.category = t.category) ∧
      (∀ s, req.recurrence = some s → u.recurrence = s) ∧
      (req.recurrence = none → u.recurrence = t.recurrence) := by
  have hout : updateHandler store id req =
      { status := 200, returned := some (applyUpdate t req due),
        store := store.map (fun s => if s.id == id then applyUpdate t req due else s),
        broadcasts := ["TASK_UPDATED"] } := by
    unfold updateHandler
    rw [hdue]
    simp only [jsNewDate]
    rw [hfind]
  rw [hout]
  refine ⟨rfl, rfl, applyUpdate t req due, rfl, rfl, rfl,
    fun s hs => ?_, fun hn => ?_, fun s hs => ?_, fun hn => ?_,
    fun s hs => ?_, fun hn => ?_, fun s hs => ?_, fun hn => ?_⟩
  all_goals simp_all [applyUpdate]

/-- Claim C2 witness: the amended theorem applied to a concrete store
and a request supplying title and dueDate only. -/
theorem C2_witness :
    (updateHandler [taskStored] 1
        { title := some "Renamed", priority := none, category := none,
          dueDate := some (some 1709300000000), recurrence := none }).status
      = 200 ∧
    (updateHandler [taskStored] 1
        { title := some "Renamed", priority := none, category := none,
          dueDate := some (some 1709300000000), recurrence := none }).broadcasts
      = ["TASK_UPDATED"] ∧
    ∃ u, (updateHandler [taskStored] 1
        { title := some "Renamed", priority := none, category := none,
          dueDate := some (some 1709300000000), recurrence := none }).returned
        = some u ∧
      u.id = taskStored.id ∧
      u.dueDate = 1709300000000 ∧
      (∀ s, (some "Renamed" : Option String) = some s → u.title = s) ∧
      ((some "Renamed" : Option String) = none → u.title = taskStored.title) ∧
      (∀ s, (none : Option String) = some s → u.priority = s) ∧
      ((none : Option String) = none → u.priority = taskStored.priority) ∧
      (∀ s, (none : Option String) = some s → u.category = s) ∧
      ((none : Option String) = none → u.category = taskStored.category) ∧
      (∀ s, (none : Option String) = some s → u.recurrence = s) ∧
      ((none : Option String) = none → u.recurrence = taskStored.recurrence) :=
  C2_update_replaces_supplied_fields [taskStored] 1
    { title := some "Renamed", priority := none, category := none,
      dueDate := some (some 1709300000000), recurrence := none }
    1709300000000 taskStored rfl (by decide)

/-! ## Readiness gate

src/index.js installs a middleware that answers 503 "Database not
connected" whenever mongoose.connection.readyState is not 1, before any
route handler runs; but that file defines only the signup and login
routes. The other server file defines all task routes and installs no
such middleware, so its handlers run — and attempt the store operation —
whatever the connection state. -/

/-- The visible outcome of a request for readiness purposes: the status
answered and whether a store operation was attempted. -/
structure GateOutcome where
  status : Nat
  storeAttempted : Bool
  deriving Repr, DecidableEq

/-- The middleware chain of src/index.js around a route handler: when
readyState is not 1 the request is answered 503 before the handler (and
hence before any store operation); otherwise the handler runs. -/
def indexJsPipeline (readyState : Nat) (route : GateOutcome) : GateOutcome :=
  if readyState != 1 then { status := 503, storeAttempted := false }
  else route

/-- The middleware chain of the unnamed server file around a route
handler: CORS and JSON parsing only — no readiness check, the handler
always runs. -/
def part000Pipeline (route : GateOutcome) : GateOutcome := route

/-- The POST tasks route of the unnamed server file when the store is
not connected: newTask.save() is attempted (mongoose buffers the write
and eventually fails it), and the catch branch answers 400. -/
def part000CreateStoreDown : GateOutcome :=
  { status := 400, storeAttempted := true }

/-- Claim C3 counterexample: a task-create request on the server file
that defines the task routes, arriving while the store is not connected,
is not rejected with 503 and does attempt the store operation — that
file has no readiness middleware, so the claim fails for task
mutations. -/
theorem C3_counterexample :
    (part000Pipeline part000CreateStoreDown).status ≠ 503 ∧
    (part000Pipeline part000CreateStoreDown).storeAttempted = true := by
  decide

/-- Claim C3 (amended): in src/index.js — the variant with the readiness
middleware, whose only mutating routes are signup and login — every
request arriving while readyState is not 1 is answered 503 and no store
operation is attempted; the variant that defines the task routes has no
readiness gate, so task mutations attempt the store regardless. -/
theorem C3_indexjs_gate_rejects_503 (readyState : Nat)
    (route : GateOutcome) (h : readyState ≠ 1) :
    (indexJsPipeline readyState route).status = 503 ∧
    (indexJsPipeline readyState route).storeAttempted = false := by
  unfold indexJsPipeline
  have hb : (readyState != 1) = true := by
    simpa using h
  rw [if_pos hb]
  exact ⟨rfl, rfl⟩

/-- Claim C3 witness: the amended theorem applied to readyState 0 (the
disconnected state) around a handler that would have attempted the
store. -/
theorem C3_witness :
    (indexJsPipeline 0 { status := 201, storeAttempted := true }).status = 503 ∧
    (indexJsPipeline 0 { status := 201, storeAttempted := true }).storeAttempted
      = false :=
  C3_indexjs_gate_rejects_503 0 { status := 201, storeAttempted := true }
    (by decide)

/-! ## Notification fan-out

broadcastTaskUpdate iterates over wss.clients and calls client.send on
every client whose readyState is OPEN. In the ws library, send on an
open socket reports delivery failures asynchronously (error event or
callback), never as a synchronous exception, so one failing subscriber
cannot interrupt the loop and no error reaches the mutating request;
the model therefore returns the ordered log of attempts, each paired
with its transport outcome, and has no failure channel. -/

/-- A live-update subscriber connection: its readyState and whether a
delivery attempt to it would fail in transport. -/
structure WsClient where
  readyState : Nat
  sendFails : Bool
  deriving Repr, DecidableEq

/-- WebSocket.OPEN. -/
def wsOPEN : Nat := 1

/-- client.send: the delivery outcome, reported out of band. -/
def wsSend (c : WsClient) : Bool := !c.sendFails

/-- The broadcast loop: attempt delivery to each client in order when
its readyState is OPEN, recording the attempt and its outcome. -/
def broadcastTaskUpdate : List WsClient → List (WsClient × Bool)
  | [] => []
  | c :: cs =>
    if c.readyState == wsOPEN then (c, wsSend c) :: broadcastTaskUpdate cs
    else broadcastTaskUpdate cs

/-- Claim C4: delivery is attempted to exactly the open subscribers, in
order, whatever each attempt's outcome: the attempt log projected to
clients equals the open-client sublist for every assignment of
per-client transport failures, so a failing subscriber removes no later
attempt; and the broadcast returns only this log — it has no error
result to surface to the mutating request. -/
theorem C4_broadcast_attempts_all_open (clients : List WsClient) :
    (broadcastTaskUpdate clients).map Prod.fst =
      clients.filter (fun c => c.readyState == wsOPEN) := by
  induction clients with
  | nil => rfl
  | cons c cs ih =>
    by_cases hc : (c.readyState == wsOPEN) = true
    · simp [broadcastTaskUpdate, List.filter_cons, hc, ih]
    · simp [broadcastTaskUpdate, List.filter_cons, hc, ih]

/-! ## Auth routes

Signup and login guard on JavaScript falsiness of the two body fields
(absent, null or empty string), then look the email up with findOne.
bcrypt is opaque to these routes: hashing is a function from passwords
to hashes, verification a Boolean function of password and stored hash,
and both handlers take it as a parameter. -/

/-- JavaScript falsiness of an optional string field: absent or empty. -/
def jsFalsy : Option String → Bool
  | none => true
  | some s => s == ""

/-- The POST login route: 400 when a field is falsy; 401 with the same
generic message both when no user matches the email and when the hash
does not verify; 200 echoing the email otherwise. -/
def loginHandler (verify : String → String → Bool) (users : List User)
    (email? password? : Option String) : Resp :=
  if jsFalsy email? || jsFalsy password? then
    { status := 400, message := "Email and password required", email := none }
  else
    match users.find? (fun u => u.email == email?.getD "") with
    | none =>
      { status := 401, message := "Invalid email or password", email := none }
    | some user =>
      if verify (password?.getD "") user.passwordHash then
        { status := 200, message := "Login successful", email := some user.email }
      else
        { status := 401, message := "Invalid email or password", email := none }

/-- The POST signup route: 400 when a field is falsy; 409 when findOne
finds the email already registered (before any write); otherwise the
hashed user is appended to the store and the route answers 201. -/
def signupHandler (hashpw : String → String) (users : List User)
    (email? password? : Option String) : Resp × List User :=
  if jsFalsy email? || jsFalsy password? then
    ({ status := 400, message := "Email and password required", email := none },
      users)
  else
    match users.find? (fun u => u.email == email?.getD "") with
    | some _ =>
      ({ status := 409, message := "Email already registered", email := none },
        users)
    | none =>
      ({ status := 201, message := "User registered successfully", email := none },
        users ++ [{ email := email?.getD "",
                    passwordHash := hashpw (password?.getD "") }])

/-- Two members of an email-unique user list with the same email are the
same record. -/
lemma email_unique {users : List User}
    (huniq : users.Pairwise (fun a b => a.email ≠ b.email)) {u v : User}
    (hu : u ∈ users) (hv : v ∈ users) (hemail : u.email = v.email) : u = v := by
  induction users with
  | nil => cases hu
  | cons w ws ih =>
    rcases List.pairwise_cons.mp huniq with ⟨hw, hws⟩
    rcases List.mem_cons.mp hu with rfl | hu2
    · rcases List.mem_cons.mp hv with rfl | hv2
      · rfl
      · exact absurd hemail (hw v hv2)
    · rcases List.mem_cons.mp hv with rfl | hv2
      · exact absurd hemail.symm (hw u hu2)
      · exact ih hws hu2 hv2

/-- Claim C6: with both fields present (non-falsy) and the credential
store email-unique, login answers 200 if and only if some stored user
has that email and the password verifies against its hash; a successful
login echoes the email; and every unsuccessful login — unknown email or
wrong password alike — is the identical response: status 401 with the
same generic message. -/
theorem C6_login_iff_and_generic_failure (verify : String → String → Bool)
    (users : List User) (e p : String) (he : e ≠ "") (hp : p ≠ "")
    (huniq : users.Pairwise (fun a b => a.email ≠ b.email)) :
    ((loginHandler verify users (some e) (some p)).status = 200 ↔
      ∃ u, u ∈ users ∧ u.email = e ∧ verify p u.passwordHash = true) ∧
    ((loginHandler verify users (some e) (some p)).status = 200 →
      (loginHandler verify users (some e) (some p)).email = some e) ∧
    ((loginHandler verify users (some e) (some p)).status ≠ 200 →
      loginHandler verify users (some e) (some p) =
        { status := 401, message := "Invalid email or password", email := none }) := by
  have hfals : (jsFalsy (some e) || jsFalsy (some p)) = false := by
    simp [jsFalsy, he, hp]
  have hred : loginHandler verify users (some e) (some p) =
      match users.find? (fun u => u.email == e) with
      | none =>
        { status := 401, message := "Invalid email or password", email := none }
      | some user =>
        if verify p user.passwordHash then
          { status := 200, message := "Login successful", email := some user.email }
        else
          { status := 401, message := "Invalid email or password", email := none } := by
    unfold loginHandler
    rw [hfals]
    rfl
  cases hf : users.find? (fun u => u.email == e) with
  | none =>
    have hL : loginHandler verify users (some e) (some p) =
        { status := 401, message := "Invalid email or password", email := none } := by
      rw [hred, hf]
    rw [hL]
    refine ⟨?_, by simp, fun _ => rfl⟩
    simp only [show (401 : Nat) = 200 ↔ False by simp, false_iff]
    rintro ⟨u, hu, hue, hv⟩
    have := List.find?_eq_none.mp hf u hu
    simp [hue] at this
  | some u =>
    have hu_mem : u ∈ users := List.mem_of_find?_eq_some hf
    have hu_email : u.email = e := by
      have := List.find?_some hf
      simpa using this
    by_cases hv : verify p u.passwordHash = true
    · have hL : loginHandler verify users (some e) (some p) =
          { status := 200, message := "Login successful",
            email := some u.email } := by
        rw [hred, hf]
        simp [hv]
      rw [hL]
      refine ⟨?_, fun _ => by simp [hu_email], fun hne => absurd rfl hne⟩
      simp only [show (200 : Nat) = 200 ↔ True by simp, true_iff]
      exact ⟨u, hu_mem, hu_email, hv⟩
    · have hv2 : verify p u.passwordHash = false := by
        simpa using hv
      have hL : loginHandler verify users (some e) (some p) =
          { status := 401, message := "Invalid email or password",
            email := none } := by
        rw [hred, hf]
        simp [hv2]
      rw [hL]
      refine ⟨?_, by simp, fun _ => rfl⟩
      simp only [show (401 : Nat) = 200 ↔ False by simp, false_iff]
      rintro ⟨v, hv_mem, hv_email, hvv⟩
      have hveq : v = u :=
        email_unique huniq hv_mem hu_mem (hv_email.trans hu_email.symm)
      subst hveq
      exact hv hvv

/-- Claim C6 witness: the theorem applied to a one-user store with a
concrete verification function, instantiating the success direction and
the generic-failure shape. -/
theorem C6_witness :
    ((loginHandler (fun pw h => h == String.append "hashed:" pw)
        [{ email := "a@b.c", passwordHash := "hashed:pw1" }]
        (some "a@b.c") (some "pw1")).status = 200 ↔
      ∃ u, u ∈ ([{ email := "a@b.c", passwordHash := "hashed:pw1" }] : List User) ∧
        u.email = "a@b.c" ∧
        (fun pw h => h == String.append "hashed:" pw) "pw1" u.passwordHash = true) ∧
    ((loginHandler (fun pw h => h == String.append "hashed:" pw)
        [{ email := "a@b.c", passwordHash := "hashed:pw1" }]
        (some "a@b.c") (some "pw1")).status = 200 →
      (loginHandler (fun pw h => h == String.append "hashed:" pw)
        [{ email := "a@b.c", passwordHash := "hashed:pw1" }]
        (some "a@b.c") (some "pw1")).email = some "a@b.c") ∧
    ((loginHandler (fun pw h => h == String.append "hashed:" pw)
        [{ email := "a@b.c", passwordHash := "hashed:pw1" }]
        (some "a@b.c") (some "pw1")).status ≠ 200 →
      loginHandler (fun pw h => h == String.append "hashed:" pw)
        [{ email := "a@b.c", passwordHash := "hashed:pw1" }]
        (some "a@b.c") (some "pw1") =
          { status := 401, message := "Invalid email or password",
            email := none }) :=
  C6_login_iff_and_generic_failure (fun pw h => h == String.append "hashed:" pw)
    [{ email := "a@b.c", passwordHash := "hashed:pw1" }] "a@b.c" "pw1"
    (by decide) (by decide) (by simp)

/-- Claim C8: with both fields present, when some stored user already
has the supplied email, signup answers 409 and the store is returned
unchanged — in particular the existing user record, hash included, is
still present. -/
theorem C8_duplicate_signup_409_unchanged (hashpw : String → String)
    (users : List User) (u : User) (e p : String)
    (he : e ≠ "") (hp : p ≠ "") (hu : u ∈ users) (hue : u.email = e) :
    (signupHandler hashpw users (some e) (some p)).1.status = 409 ∧
    (signupHandler hashpw users (some e) (some p)).2 = users ∧
    u ∈ (signupHandler hashpw users (some e) (some p)).2 := by
  have hfals : (jsFalsy (some e) || jsFalsy (some p)) = false := by
    simp [jsFalsy, he, hp]
  have hred : signupHandler hashpw users (some e) (some p) =
      match users.find? (fun v => v.email == e) with
      | some _ =>
        ({ status := 409, message := "Email already registered", email := none },
          users)
      | none =>
        ({ status := 201, message := "User registered successfully", email := none },
          users ++ [{ email := e, passwordHash := hashpw p }]) := by
    unfold signupHandler
    rw [hfals]
    rfl
  rw [hred]
  cases hf : users.find? (fun v => v.email == e) with
  | none =>
    have := List.find?_eq_none.mp hf u hu
    simp [hue] at this
  | some w =>
    exact ⟨rfl, rfl, hu⟩

/-- Claim C8 witness: the theorem applied to a concrete one-user store
and a duplicate signup for the same email. -/
theorem C8_witness :
    (signupHandler (fun pw => String.append "hashed:" pw)
        [{ email := "a@b.c", passwordHash := "hashed:pw1" }]
        (some "a@b.c") (some "other")).1.status = 409 ∧
    (signupHandler (fun pw => String.append "hashed:" pw)
        [{ email := "a@b.c", passwordHash := "hashed:pw1" }]
        (some "a@b.c") (some "other")).2 =
      [{ email := "a@b.c", passwordHash := "hashed:pw1" }] ∧
    ({ email := "a@b.c", passwordHash := "hashed:pw1" } : User) ∈
      (signupHandler (fun pw => String.append "hashed:" pw)
        [{ email := "a@b.c", passwordHash := "hashed:pw1" }]
        (some "a@b.c") (some "other")).2 :=
  C8_duplicate_signup_409_unchanged (fun pw => String.append "hashed:" pw)
    [{ email := "a@b.c", passwordHash := "hashed:pw1" }]
    { email := "a@b.c", passwordHash := "hashed:pw1" } "a@b.c" "other"
    (by decide) (by decide) (by simp) rfl

/-! ## Date-range listing

The GET tasks-by-date route computes start as new Date of the path
parameter truncated to local midnight with setHours, computes the end
bound as the next local midnight with setDate, then runs Task.find with
dueDate at least start and below the end bound, sorted by ascending
dueDate. The query is modelled as a filter of the store followed by a
sort on dueDate (MongoDB leaves the relative order of equal keys
unspecified, so the result is characterised up to permutation). -/

/-- The comparison the sort uses: ascending dueDate. -/
def dueLe (a b : Task) : Prop := a.dueDate ≤ b.dueDate

instance : DecidableRel dueLe := fun a b => Int.decLe a.dueDate b.dueDate

instance : IsTotal Task dueLe := ⟨fun a b => Int.le_total a.dueDate b.dueDate⟩

instance : IsTrans Task dueLe := ⟨fun _ _ _ h1 h2 => Int.le_trans h1 h2⟩

/-- The date-range query: tasks with dueDate in the half-open interval
from s inclusive to e exclusive, sorted by ascending dueDate. -/
def listByDate (store : List Task) (s e : Int) : List Task :=
  List.insertionSort dueLe
    (store.filter (fun t => decide (s ≤ t.dueDate) && decide (t.dueDate < e)))

/-- Claim C7: the date-range listing returns exactly the stored tasks
whose dueDate lies in the half-open day interval and no others, is
sorted by ascending dueDate, and is independent of insertion order: a
permutation of the store yields a permutation of the same result. -/
theorem C7_listByDate_exact_sorted (store : List Task) (s e : Int) :
    (∀ t, t ∈ listByDate store s e ↔
      t ∈ store ∧ s ≤ t.dueDate ∧ t.dueDate < e) ∧
    List.Sorted dueLe (listByDate store s e) ∧
    (∀ store2, store2.Perm store →
      (listByDate store2 s e).Perm (listByDate store s e)) := by
  refine ⟨?_, List.sorted_insertionSort dueLe _, ?_⟩
  · intro t
    rw [listByDate, List.mem_insertionSort, List.mem_filter]
    simp
  · intro store2 hperm
    unfold listByDate
    exact (List.perm_insertionSort dueLe _).trans
      ((hperm.filter _).trans (List.perm_insertionSort dueLe _).symm)

/-- Sample tasks for the date-range witness: two inside a day interval
(out of dueDate order), one outside it. -/
def tEarly : Task :=
  { id := 10, title := "Early", priority := "Medium", category := "General",
    dueDate := 3, recurrence := "None" }

def tLate : Task :=
  { id := 11, title := "Late", priority := "Low", category := "General",
    dueDate := 5, recurrence := "None" }

def tOutside : Task :=
  { id := 12, title := "Outside", priority := "High", category := "General",
    dueDate := 9, recurrence := "None" }

/-- Claim C7 witness: the theorem applied to a concrete store and to a
reordering of it. -/
theorem C7_witness :
    (∀ t, t ∈ listByDate [tLate, tEarly, tOutside] 0 6 ↔
      t ∈ [tLate, tEarly, tOutside] ∧ 0 ≤ t.dueDate ∧ t.dueDate < 6) ∧
    List.Sorted dueLe (listByDate [tLate, tEarly, tOutside] 0 6) ∧
    (listByDate [tOutside, tEarly, tLate] 0 6).Perm
      (listByDate [tLate, tEarly, tOutside] 0 6) :=
  ⟨(C7_listByDate_exact_sorted [tLate, tEarly, tOutside] 0 6).1,
   (C7_listByDate_exact_sorted [tLate, tEarly, tOutside] 0 6).2.1,
   (C7_listByDate_exact_sorted [tLate, tEarly, tOutside] 0 6).2.2
     [tOutside, tEarly, tLate] (by decide)⟩

/-- A status-and-task-list response, for the list routes. -/
structure ListResp where
  status : Nat
  tasks : List Task
  deriving Repr, DecidableEq

/-- The GET tasks-by-date route. new Date of an unparseable path
parameter is Invalid Date (none); the route performs no validation of
its own, so the invalid bound reaches the mongoose query, whose cast
failure is thrown, caught by the route's catch and answered 500 "Server
error". On a parseable parameter the bounds are the local midnight of
the parsed timestamp and the following local midnight (both are
server-timezone functions, taken as parameters). -/
def getTasksByDate (store : List Task) (startOfDay nextMidnight : Int → Int)
    (parsedDate : Option Int) : ListResp :=
  match parsedDate with
  | none => { status := 500, tasks := [] }
  | some ts =>
    { status := 200,
      tasks := listByDate store (startOfDay ts) (nextMidnight (startOfDay ts)) }

/-- Claim C10: a tasks-by-date request whose path parameter does not
parse as a date is answered 500, not 400: the route has no validation
branch at all — every outcome is 200 or 500 — and the unparseable
parameter surfaces as the caught query failure. -/
theorem C10_unparseable_date_500 (store : List Task)
    (startOfDay nextMidnight : Int → Int) (parsedDate : Option Int)
    (h : parsedDate = none) :
    (getTasksByDate store startOfDay nextMidnight parsedDate).status = 500 ∧
    (getTasksByDate store startOfDay nextMidnight parsedDate).status ≠ 400 ∧
    (∀ q : Option Int,
      (getTasksByDate store startOfDay nextMidnight q).status = 200 ∨
      (getTasksByDate store startOfDay nextMidnight q).status = 500) := by
  subst h
  refine ⟨rfl, ?_, ?_⟩
  · show (500 : Nat) ≠ 400
    decide
  intro q
  cases q with
  | none => exact Or.inr rfl
  | some ts => exact Or.inl rfl

/-- Claim C10 witness: the theorem applied to a concrete store and
concrete midnight functions, with an unparseable date parameter. -/
theorem C10_witness :
    (getTasksByDate [tEarly] (fun x => x) (fun x => x + 86400000)
      none).status = 500 ∧
    (getTasksByDate [tEarly] (fun x => x) (fun x => x + 86400000)
      none).status ≠ 400 ∧
    (∀ q : Option Int,
      (getTasksByDate [tEarly] (fun x => x) (fun x => x + 86400000)
        q).status = 200 ∨
      (getTasksByDate [tEarly] (fun x => x) (fun x => x + 86400000)
        q).status = 500) :=
  C10_unparseable_date_500 [tEarly] (fun x => x) (fun x => x + 86400000)
    none rfl

end SmartTasker
